import Mathlib

/-!
Shallow embedding of `src/banking_sytem.py` (a command-line banking system:
`Account` with deposit/withdraw/authenticate, `Bank` with an accounts
dictionary, a SQLite-backed ledger, and an atomic `transfer_money`).

Modelling decisions, all driven by the source:
* Python `int` balances become `Int` (arbitrary precision, like Python).
* The accounts dictionary `self.accounts` becomes an association list
  `List (String × Account)`; `find_account` is `dict.get`.
* The SQLite connection becomes a `DBState` with a `committed` snapshot and a
  `current` (in-transaction) snapshot: `cursor.execute` edits `current`,
  `conn.commit()` copies `current` into `committed`, `conn.rollback()` copies
  `committed` back into `current`.
* Each statement that can raise `sqlite3.Error` gets a Boolean in a
  `FailureOracle`; a `true` flag means that statement raises.  This is the
  standard way to embed exception-based control flow.
* `hashlib.sha256(...).hexdigest()` is modelled as an abstract parameter
  `sha256_hex : String → String`; the code only ever compares its outputs.
* `input()` values are ordinary arguments; `int(input())` that may raise
  `ValueError` becomes an `Option Int` argument (`none` = unparsable).
* Timestamps are not modelled: no claim mentions them and they do not affect
  control flow.
-/

/-- One row of the `transactions` table, as written by `log_transaction`
(`account_number, transaction_type, details, amount, current_balance`);
the timestamp column is not modelled. -/
structure LogEntry where
  account_number : String
  transaction_type : String
  details : String
  amount : Int
  current_balance : Int
deriving Repr, DecidableEq

/-- The persisted content relevant to the claims: the `accounts` table
(balance per account number) and the `transactions` table. -/
structure Snapshot where
  accounts : List (String × Int)
  txLog : List LogEntry
deriving Repr, DecidableEq

/-- A SQLite connection: the durably `committed` snapshot and the `current`
in-transaction view seen by `cursor.execute`. -/
structure DBState where
  committed : Snapshot
  current : Snapshot
deriving Repr, DecidableEq

/-- `cursor.execute("UPDATE accounts SET balance = ? WHERE account_number = ?")`:
edits the current (uncommitted) view. -/
def dbUpdateBalance (db : DBState) (acc_no : String) (bal : Int) : DBState :=
  { db with current := { db.current with
      accounts := db.current.accounts.map (fun p => if p.1 = acc_no then (p.1, bal) else p) } }

/-- `cursor.execute("INSERT INTO transactions ...")`: appends to the current
(uncommitted) view. -/
def dbInsertLog (db : DBState) (e : LogEntry) : DBState :=
  { db with current := { db.current with txLog := db.current.txLog ++ [e] } }

/-- `cursor.execute("INSERT INTO accounts ...")` (used by `_insert_account`). -/
def dbInsertAccount (db : DBState) (acc_no : String) (bal : Int) : DBState :=
  { db with current := { db.current with accounts := db.current.accounts ++ [(acc_no, bal)] } }

/-- `conn.commit()`: the current view becomes durable. -/
def dbCommit (db : DBState) : DBState :=
  { committed := db.current, current := db.current }

/-- `conn.rollback()`: the current view is reset to the committed snapshot. -/
def dbRollback (db : DBState) : DBState :=
  { committed := db.committed, current := db.committed }

/-- `log_transaction(cursor, acc_no, txn_type, amount, balance, details)`:
tries the INSERT; a `sqlite3.Error` (`fail = true`) is caught INSIDE this
function ("This error is critical but shouldn't stop the main transaction
from committing") and only a warning is printed, so the caller always sees a
normal return. -/
def log_transaction (fail : Bool) (db : DBState) (acc_no txn_type : String)
    (amount balance : Int) (details : String) : DBState :=
  if fail then db
  else dbInsertLog db ⟨acc_no, txn_type, details, amount, balance⟩

/-- The `Account` class (`__init__` fields). -/
structure Account where
  account_number : String
  name : String
  mail : String
  mobile_num : String
  address : String
  balance : Int
  pin_hash : String
deriving Repr, DecidableEq

/-- `Account.deposit`: "Updates the balance in memory. Does NOT commit to DB."
Returns the Python `True`/`False` together with the (possibly mutated)
object. -/
def Account.deposit (a : Account) (amount : Int) : Bool × Account :=
  if amount ≤ 0 then (false, a)
  else (true, { a with balance := a.balance + amount })

/-- `Account.withdraw`: rejects `amount <= 0`, then `amount > self.balance`,
otherwise subtracts. -/
def Account.withdraw (a : Account) (amount : Int) : Bool × Account :=
  if amount ≤ 0 then (false, a)
  else if a.balance < amount then (false, a)
  else (true, { a with balance := a.balance - amount })

/-- `Account.authenticate`: hashes the provided pin and compares it to the
stored hash.  `sha256_hex` abstracts `hashlib.sha256(pin.encode()).hexdigest()`. -/
def Account.authenticate (sha256_hex : String → String) (a : Account) (pin : String) : Bool :=
  sha256_hex pin = a.pin_hash

/-- `self.accounts.get(acc_no)` (`Bank.find_account`). -/
def find_account : List (String × Account) → String → Option Account
  | [], _ => none
  | p :: rest, k => if p.1 = k then some p.2 else find_account rest k

/-- Mutating `obj.balance` for the object stored in the dictionary under
`acc_no` (Python aliasing: the dict holds the object itself). -/
def updateBalance (l : List (String × Account)) (acc_no : String) (bal : Int) :
    List (String × Account) :=
  l.map (fun p => if p.1 = acc_no then (p.1, { p.2 with balance := bal }) else p)

/-- `self.accounts[acc_no] = account` (dict assignment: overwrite or append). -/
def setAccount (l : List (String × Account)) (acc_no : String) (a : Account) :
    List (String × Account) :=
  if l.any (fun p => p.1 = acc_no) then
    l.map (fun p => if p.1 = acc_no then (p.1, a) else p)
  else l ++ [(acc_no, a)]

/-- Which of the fallible SQLite statements inside `Bank.transfer_money`
raise `sqlite3.Error`. -/
structure FailureOracle where
  updateSrcFails : Bool
  updateDstFails : Bool
  logOutFails : Bool
  logInFails : Bool
  commitFails : Bool
deriving Repr, DecidableEq

/-- The outcome printed by `Bank.transfer_money` (the spec's error taxonomy:
`SameAccount`, `AccountNotFound`, `InvalidAmount`, `InsufficientFunds`,
`TransferFailed`; `invalidInput` is the `ValueError` branch). -/
inductive TransferResult where
  | ok
  | sameAccount
  | accountNotFound
  | invalidInput
  | invalidAmount
  | insufficientFunds
  | transferFailed
deriving Repr, DecidableEq

/-- The in-memory bank (`self.accounts`) plus the database connection. -/
structure BankState where
  accounts : List (String × Account)
  db : DBState
deriving Repr, DecidableEq

/-- The try-block of `Bank.transfer_money` ("Atomic Transaction Starts Here"),
entered once all validations passed.  Steps, in source order:
1. update both balances in memory;
2. two UPDATE statements (either may raise);
3. two `log_transaction` calls (these swallow their own errors and never raise);
4. `conn.commit()` (may raise).
The `except sqlite3.Error` handler rolls the DB back and reverts the two
in-memory balances (`source += amount; dest -= amount`). -/
def Bank.transferCore (oracle : FailureOracle) (st : BankState)
    (source dest : Account) (dest_acc_no : String) (amount : Int) :
    TransferResult × BankState :=
  let newSrcBal := source.balance - amount
  let newDstBal := dest.balance + amount
  let mem := updateBalance (updateBalance st.accounts source.account_number newSrcBal)
      dest_acc_no newDstBal
  let memReverted := updateBalance (updateBalance mem source.account_number (newSrcBal + amount))
      dest_acc_no (newDstBal - amount)
  if oracle.updateSrcFails then
    (TransferResult.transferFailed, { accounts := memReverted, db := dbRollback st.db })
  else
    let db1 := dbUpdateBalance st.db source.account_number newSrcBal
    if oracle.updateDstFails then
      (TransferResult.transferFailed, { accounts := memReverted, db := dbRollback db1 })
    else
      let db2 := dbUpdateBalance db1 dest_acc_no newDstBal
      let db3 := log_transaction oracle.logOutFails db2 source.account_number "Transfer Out"
          amount newSrcBal (String.append "To: " dest_acc_no)
      let db4 := log_transaction oracle.logInFails db3 dest_acc_no "Transfer In"
          amount newDstBal (String.append "From: " source.account_number)
      if oracle.commitFails then
        (TransferResult.transferFailed, { accounts := memReverted, db := dbRollback db4 })
      else
        (TransferResult.ok, { accounts := mem, db := dbCommit db4 })

/-- `Bank.transfer_money(source_account)`: validations in source order
(self-transfer, destination lookup, amount parse, `amount <= 0`,
`amount > source.balance`), then the atomic block.  `source` is the
logged-in account object; `amountInput = none` is the `ValueError` branch. -/
def Bank.transfer_money (oracle : FailureOracle) (st : BankState) (source : Account)
    (dest_acc_no : String) (amountInput : Option Int) : TransferResult × BankState :=
  if dest_acc_no = source.account_number then (TransferResult.sameAccount, st)
  else
    match find_account st.accounts dest_acc_no with
    | none => (TransferResult.accountNotFound, st)
    | some dest_account =>
      match amountInput with
      | none => (TransferResult.invalidInput, st)
      | some amount =>
        if amount ≤ 0 then (TransferResult.invalidAmount, st)
        else if source.balance < amount then (TransferResult.insufficientFunds, st)
        else Bank.transferCore oracle st source dest_account dest_acc_no amount

/-- One user-visible mutating operation, with its failure flags.
* `create`: `Bank.create_account` after input validation — the input loop
  re-prompts until `initialDeposit >= 0`, so a negative initial deposit never
  reaches creation (modelled as a no-op, like the loop never accepting it);
  `persistFails` is `_insert_account` failing (account then NOT added to the
  dict), `logFails` is the best-effort `log_transaction` failing.
* `deposit`/`withdraw`: the main-menu handlers — `Account.deposit`/`withdraw`
  in memory, then `_commit_change` of the new balance (on failure the
  in-memory balance is rolled back), then best-effort logging and commit.
* `transfer`: `Bank.transfer_money` on the logged-in account object (the
  object stored in the dict under `srcNo`). -/
inductive Op where
  | create (acc_no name mail mobile_num address : String) (init : Int) (pin_hash : String)
      (persistFails logFails : Bool)
  | deposit (acc_no : String) (amount : Int) (persistFails logFails : Bool)
  | withdraw (acc_no : String) (amount : Int) (persistFails logFails : Bool)
  | transfer (oracle : FailureOracle) (srcNo destNo : String) (amountInput : Option Int)

/-- Run one operation against the bank, following the source's control flow. -/
def applyOp (st : BankState) : Op → BankState
  | Op.create acc_no name mail mobile_num address init pin_hash persistFails logFails =>
    if init < 0 then st
    else if persistFails then { st with db := dbRollback st.db }
    else
      let acct : Account := ⟨acc_no, name, mail, mobile_num, address, init, pin_hash⟩
      let db1 := dbCommit (dbInsertAccount st.db acc_no init)
      let db2 := dbCommit (log_transaction logFails db1 acc_no "Account Created" init init "")
      { accounts := setAccount st.accounts acc_no acct, db := db2 }
  | Op.deposit acc_no amount persistFails logFails =>
    match find_account st.accounts acc_no with
    | none => st
    | some account =>
      match Account.deposit account amount with
      | (false, _) => st
      | (true, account1) =>
        let mem := updateBalance st.accounts acc_no account1.balance
        if persistFails then
          { accounts := updateBalance mem acc_no (account1.balance - amount),
            db := dbRollback st.db }
        else
          let db1 := dbCommit (dbUpdateBalance st.db acc_no account1.balance)
          let db2 := dbCommit (log_transaction logFails db1 acc_no "Deposit" amount
              account1.balance "")
          { accounts := mem, db := db2 }
  | Op.withdraw acc_no amount persistFails logFails =>
    match find_account st.accounts acc_no with
    | none => st
    | some account =>
      match Account.withdraw account amount with
      | (false, _) => st
      | (true, account1) =>
        let mem := updateBalance st.accounts acc_no account1.balance
        if persistFails then
          { accounts := updateBalance mem acc_no (account1.balance + amount),
            db := dbRollback st.db }
        else
          let db1 := dbCommit (dbUpdateBalance st.db acc_no account1.balance)
          let db2 := dbCommit (log_transaction logFails db1 acc_no "Withdrawal" amount
              account1.balance "")
          { accounts := mem, db := db2 }
  | Op.transfer oracle srcNo destNo amountInput =>
    match find_account st.accounts srcNo with
    | none => st
    | some source => (Bank.transfer_money oracle st source destNo amountInput).2

/-- Run a sequence of operations left to right. -/
def runOps (ops : List Op) (st : BankState) : BankState :=
  ops.foldl applyOp st

/-- The spec's data-model invariant: every account's balance is non-negative. -/
def AllNonneg (st : BankState) : Prop :=
  ∀ p ∈ st.accounts, 0 ≤ p.2.balance

instance (st : BankState) : Decidable (AllNonneg st) :=
  List.decidableBAll _ st.accounts

/-- Two accounts agree on every field except possibly `balance`. -/
def sameExceptBalance (a b : Account) : Prop :=
  a.account_number = b.account_number ∧ a.name = b.name ∧ a.mail = b.mail ∧
  a.mobile_num = b.mobile_num ∧ a.address = b.address ∧ a.pin_hash = b.pin_hash

/-- Entry-by-entry: same keys, same accounts up to `balance`. -/
def framesOK : List (String × Account) → List (String × Account) → Prop
  | [], [] => True
  | p :: ps, q :: qs => p.1 = q.1 ∧ sameExceptBalance p.2 q.2 ∧ framesOK ps qs
  | _, _ => False

/-- Sample data used by witnesses: the oracle where every statement succeeds. -/
def oracleOk : FailureOracle := ⟨false, false, false, false, false⟩

/-- Sample data: the oracle where only the `Transfer Out` log INSERT fails. -/
def oracleLogOutFail : FailureOracle := ⟨false, false, true, false, false⟩

/-- Sample data: the oracle where only `conn.commit()` fails. -/
def oracleCommitFail : FailureOracle := ⟨false, false, false, false, true⟩

/-- Sample account A1 with balance 1000. -/
def acctA : Account :=
  ⟨"A1", "Alice", "alice@example.com", "1111111111", "1 Main St", 1000, "hashA"⟩

/-- Sample account B1 with balance 0. -/
def acctB : Account :=
  ⟨"B1", "Bob", "bob@example.com", "2222222222", "2 Main St", 0, "hashB"⟩

/-- Sample persisted snapshot matching `acctA`/`acctB`. -/
def snap1 : Snapshot := ⟨[("A1", 1000), ("B1", 0)], []⟩

/-- Sample bank holding `acctA` and `acctB`, database in sync. -/
def bank1 : BankState := ⟨[("A1", acctA), ("B1", acctB)], ⟨snap1, snap1⟩⟩

/-- Sample empty bank with an empty database. -/
def bank0 : BankState := ⟨[], ⟨⟨[], []⟩, ⟨[], []⟩⟩⟩

/-- Sample account whose stored credential is the (identity-hashed) PIN "1234". -/
def acctPin : Account :=
  ⟨"P1", "Pat", "pat@example.com", "3333333333", "3 Main St", 50, "1234"⟩

/-- Sample operation sequence: open an account, deposit, withdraw, transfer. -/
def sampleOps : List Op :=
  [Op.create "A1" "Alice" "alice@example.com" "1111111111" "1 Main St" 500 "hashA" false false,
   Op.create "B1" "Bob" "bob@example.com" "2222222222" "2 Main St" 0 "hashB" false false,
   Op.deposit "A1" 200 false false,
   Op.withdraw "A1" 300 false false,
   Op.transfer oracleOk "A1" "B1" (some 400)]

theorem find_account_mem {l : List (String × Account)} {k : String} {a : Account}
    (h : find_account l k = some a) : (k, a) ∈ l := by
  induction l with
  | nil => simp [find_account] at h
  | cons p rest ih =>
    simp only [find_account] at h
    split at h
    · next heq =>
      injection h with h2
      subst heq
      subst h2
      exact List.mem_cons_self _ _
    · exact List.mem_cons_of_mem _ (ih h)

theorem find_account_updateBalance_self {l : List (String × Account)} {k : String} {a : Account}
    (b : Int) (h : find_account l k = some a) :
    find_account (updateBalance l k b) k = some { a with balance := b } := by
  induction l with
  | nil => simp [find_account] at h
  | cons p rest ih =>
    simp only [find_account, updateBalance, List.map_cons] at *
    by_cases hk : p.1 = k
    · simp only [if_pos hk] at h
      injection h with h2
      subst h2
      simp [hk]
    · simp only [if_neg hk] at h
      simpa [find_account, hk] using ih h

theorem find_account_updateBalance_ne (l : List (String × Account)) {k k' : String}
    (b : Int) (h : k' ≠ k) :
    find_account (updateBalance l k b) k' = find_account l k' := by
  induction l with
  | nil => rfl
  | cons p rest ih =>
    simp only [updateBalance, List.map_cons] at *
    by_cases hk : p.1 = k
    · simp [find_account, hk, Ne.symm h, ih]
    · by_cases hk' : p.1 = k'
      · simp [find_account, hk, hk', h]
      · simp [find_account, hk, hk', ih]

theorem updateBalance_nonneg {l : List (String × Account)} {k : String} {b : Int}
    (hl : ∀ p ∈ l, 0 ≤ (p.2).balance) (hb : 0 ≤ b) :
    ∀ p ∈ updateBalance l k b, 0 ≤ (p.2).balance := by
  intro p hp
  simp only [updateBalance, List.mem_map] at hp
  obtain ⟨q, hq, rfl⟩ := hp
  by_cases h : q.1 = k
  · simpa [h] using hb
  · simpa [h] using hl q hq

theorem setAccount_nonneg {l : List (String × Account)} {k : String} {a : Account}
    (hl : ∀ p ∈ l, 0 ≤ (p.2).balance) (ha : 0 ≤ a.balance) :
    ∀ p ∈ setAccount l k a, 0 ≤ (p.2).balance := by
  intro p hp
  simp only [setAccount] at hp
  split at hp
  · simp only [List.mem_map] at hp
    obtain ⟨q, hq, rfl⟩ := hp
    by_cases h : q.1 = k
    · simpa [h] using ha
    · simpa [h] using hl q hq
  · rcases List.mem_append.mp hp with h | h
    · exact hl p h
    · simp only [List.mem_singleton] at h
      subst h
      exact ha

theorem sameExceptBalance_refl (a : Account) : sameExceptBalance a a :=
  ⟨rfl, rfl, rfl, rfl, rfl, rfl⟩

theorem sameExceptBalance_trans {a b c : Account}
    (h1 : sameExceptBalance a b) (h2 : sameExceptBalance b c) : sameExceptBalance a c := by
  obtain ⟨x1, x2, x3, x4, x5, x6⟩ := h1
  obtain ⟨y1, y2, y3, y4, y5, y6⟩ := h2
  exact ⟨x1.trans y1, x2.trans y2, x3.trans y3, x4.trans y4, x5.trans y5, x6.trans y6⟩

theorem framesOK_refl (l : List (String × Account)) : framesOK l l := by
  induction l with
  | nil => trivial
  | cons p rest ih => exact ⟨rfl, sameExceptBalance_refl _, ih⟩

theorem framesOK_trans : ∀ {l m n : List (String × Account)},
    framesOK l m → framesOK m n → framesOK l n := by
  intro l
  induction l with
  | nil =>
    intro m n h1 h2
    cases m with
    | nil => cases n with
      | nil => trivial
      | cons q qs => exact absurd h2 (by simp [framesOK])
    | cons p ps => exact absurd h1 (by simp [framesOK])
  | cons p ps ih =>
    intro m n h1 h2
    cases m with
    | nil => exact absurd h1 (by simp [framesOK])
    | cons q qs =>
      cases n with
      | nil => exact absurd h2 (by simp [framesOK])
      | cons r rs =>
        obtain ⟨k1, s1, f1⟩ := h1
        obtain ⟨k2, s2, f2⟩ := h2
        exact ⟨k1.trans k2, sameExceptBalance_trans s1 s2, ih f1 f2⟩

theorem framesOK_updateBalance (l : List (String × Account)) (k : String) (b : Int) :
    framesOK (updateBalance l k b) l := by
  induction l with
  | nil => trivial
  | cons p rest ih =>
    simp only [updateBalance, List.map_cons]
    by_cases h : p.1 = k
    · exact ⟨by simp [h], by simp [h, sameExceptBalance], ih⟩
    · exact ⟨by simp [h], by simp [h, sameExceptBalance_refl], ih⟩

theorem log_transaction_committed (fail : Bool) (db : DBState) (acc_no txn_type : String)
    (amount balance : Int) (details : String) :
    (log_transaction fail db acc_no txn_type amount balance details).committed = db.committed := by
  unfold log_transaction dbInsertLog
  split <;> rfl

theorem dbUpdateBalance_committed (db : DBState) (acc_no : String) (bal : Int) :
    (dbUpdateBalance db acc_no bal).committed = db.committed := rfl

theorem dbRollback_committed_eq (db : DBState) :
    dbRollback db = ⟨db.committed, db.committed⟩ := rfl

theorem transferCore_ok_state (oracle : FailureOracle) (st : BankState)
    (source dest : Account) (dno : String) (amount : Int)
    (h1 : oracle.updateSrcFails = false) (h2 : oracle.updateDstFails = false)
    (h5 : oracle.commitFails = false) :
    Bank.transferCore oracle st source dest dno amount =
      (TransferResult.ok,
       { accounts := updateBalance
           (updateBalance st.accounts source.account_number (source.balance - amount))
           dno (dest.balance + amount),
         db := dbCommit (log_transaction oracle.logInFails
           (log_transaction oracle.logOutFails
             (dbUpdateBalance (dbUpdateBalance st.db source.account_number (source.balance - amount))
               dno (dest.balance + amount))
             source.account_number "Transfer Out" amount (source.balance - amount)
             (String.append "To: " dno))
           dno "Transfer In" amount (dest.balance + amount)
           (String.append "From: " source.account_number)) }) := by
  unfold Bank.transferCore
  simp [h1, h2, h5]

theorem transferCore_fail_state (oracle : FailureOracle) (st : BankState)
    (source dest : Account) (dno : String) (amount : Int)
    (h : oracle.updateSrcFails = true ∨ oracle.updateDstFails = true ∨ oracle.commitFails = true) :
    Bank.transferCore oracle st source dest dno amount =
      (TransferResult.transferFailed,
       { accounts := updateBalance (updateBalance
           (updateBalance (updateBalance st.accounts source.account_number (source.balance - amount))
             dno (dest.balance + amount))
           source.account_number source.balance) dno dest.balance,
         db := dbRollback st.db }) := by
  unfold Bank.transferCore
  cases o1 : oracle.updateSrcFails with
  | true =>
    simp only [if_pos rfl, Int.sub_add_cancel, Int.add_sub_cancel]
    simp [dbRollback_committed_eq]
  | false =>
    cases o2 : oracle.updateDstFails with
    | true =>
      simp only [Bool.false_eq_true, if_false, if_pos rfl, Int.sub_add_cancel, Int.add_sub_cancel]
      simp [dbRollback_committed_eq, dbUpdateBalance_committed]
    | false =>
      cases o5 : oracle.commitFails with
      | true =>
        simp only [Bool.false_eq_true, if_false, if_pos rfl, Int.sub_add_cancel,
          Int.add_sub_cancel]
        simp [dbRollback_committed_eq, log_transaction_committed, dbUpdateBalance_committed]
      | false => simp_all

theorem transfer_money_core_eq (oracle : FailureOracle) (st : BankState) (source dest : Account)
    (dno : String) (amount : Int)
    (hne : dno ≠ source.account_number)
    (hdest : find_account st.accounts dno = some dest)
    (hpos : 0 < amount) (hle : amount ≤ source.balance) :
    Bank.transfer_money oracle st source dno (some amount) =
      Bank.transferCore oracle st source dest dno amount := by
  unfold Bank.transfer_money
  simp [hne, hdest, not_le.mpr hpos, not_lt.mpr hle]

theorem transfer_money_ok_inv (oracle : FailureOracle) (st : BankState) (source : Account)
    (dno : String) (amtInput : Option Int)
    (hres : (Bank.transfer_money oracle st source dno amtInput).1 = TransferResult.ok) :
    ∃ dest amount, dno ≠ source.account_number ∧
      find_account st.accounts dno = some dest ∧ amtInput = some amount ∧
      0 < amount ∧ amount ≤ source.balance ∧
      oracle.updateSrcFails = false ∧ oracle.updateDstFails = false ∧
      oracle.commitFails = false ∧
      Bank.transfer_money oracle st source dno amtInput =
        Bank.transferCore oracle st source dest dno amount := by
  unfold Bank.transfer_money at hres ⊢
  by_cases h1 : dno = source.account_number
  · simp [h1] at hres
  · simp only [if_neg h1] at hres ⊢
    cases hdest : find_account st.accounts dno with
    | none => simp [hdest] at hres
    | some dest =>
      simp only [hdest] at hres ⊢
      cases amtInput with
      | none => simp at hres
      | some amount =>
        simp only at hres ⊢
        by_cases h2 : amount ≤ 0
        · simp [h2] at hres
        · simp only [if_neg h2] at hres ⊢
          by_cases h3 : source.balance < amount
          · simp [h3] at hres
          · simp only [if_neg h3] at hres ⊢
            cases o1 : oracle.updateSrcFails with
            | true =>
              rw [transferCore_fail_state _ _ _ _ _ _ (Or.inl o1)] at hres
              simp at hres
            | false =>
              cases o2 : oracle.updateDstFails with
              | true =>
                rw [transferCore_fail_state _ _ _ _ _ _ (Or.inr (Or.inl o2))] at hres
                simp at hres
              | false =>
                cases o5 : oracle.commitFails with
                | true =>
                  rw [transferCore_fail_state _ _ _ _ _ _ (Or.inr (Or.inr o5))] at hres
                  simp at hres
                | false =>
                  exact ⟨dest, amount, h1, rfl, rfl, by omega, by omega, rfl, rfl, rfl, rfl⟩

theorem transfer_money_failed_inv (oracle : FailureOracle) (st : BankState) (source : Account)
    (dno : String) (amtInput : Option Int)
    (hres : (Bank.transfer_money oracle st source dno amtInput).1 = TransferResult.transferFailed) :
    ∃ dest amount, dno ≠ source.account_number ∧
      find_account st.accounts dno = some dest ∧ amtInput = some amount ∧
      0 < amount ∧ amount ≤ source.balance ∧
      (oracle.updateSrcFails = true ∨ oracle.updateDstFails = true ∨ oracle.commitFails = true) ∧
      Bank.transfer_money oracle st source dno amtInput =
        Bank.transferCore oracle st source dest dno amount := by
  unfold Bank.transfer_money at hres ⊢
  by_cases h1 : dno = source.account_number
  · simp [h1] at hres
  · simp only [if_neg h1] at hres ⊢
    cases hdest : find_account st.accounts dno with
    | none => simp [hdest] at hres
    | some dest =>
      simp only [hdest] at hres ⊢
      cases amtInput with
      | none => simp at hres
      | some amount =>
        simp only at hres ⊢
        by_cases h2 : amount ≤ 0
        · simp [h2] at hres
        · simp only [if_neg h2] at hres ⊢
          by_cases h3 : source.balance < amount
          · simp [h3] at hres
          · simp only [if_neg h3] at hres ⊢
            cases o1 : oracle.updateSrcFails with
            | true => exact ⟨dest, amount, h1, rfl, rfl, by omega, by omega, Or.inl rfl, rfl⟩
            | false =>
              cases o2 : oracle.updateDstFails with
              | true =>
                exact ⟨dest, amount, h1, rfl, rfl, by omega, by omega, Or.inr (Or.inl rfl), rfl⟩
              | false =>
                cases o5 : oracle.commitFails with
                | true =>
                  exact ⟨dest, amount, h1, rfl, rfl, by omega, by omega,
                    Or.inr (Or.inr rfl), rfl⟩
                | false =>
                  rw [transferCore_ok_state _ _ _ _ _ _ o1 o2 o5] at hres
                  simp at hres

theorem transferCore_nonneg (oracle : FailureOracle) (st : BankState)
    (source dest : Account) (dno : String) (amount : Int)
    (hinv : ∀ p ∈ st.accounts, 0 ≤ (p.2).balance)
    (hsb : 0 ≤ source.balance - amount) (hs0 : 0 ≤ source.balance)
    (hd0 : 0 ≤ dest.balance) (ha : 0 ≤ amount) :
    ∀ p ∈ (Bank.transferCore oracle st source dest dno amount).2.accounts, 0 ≤ (p.2).balance := by
  by_cases hfail : oracle.updateSrcFails = true ∨ oracle.updateDstFails = true ∨
      oracle.commitFails = true
  · rw [transferCore_fail_state _ _ _ _ _ _ hfail]
    exact updateBalance_nonneg (updateBalance_nonneg
      (updateBalance_nonneg (updateBalance_nonneg hinv hsb) (by omega)) hs0) hd0
  · simp only [not_or, Bool.not_eq_true] at hfail
    rw [transferCore_ok_state _ _ _ _ _ _ hfail.1 hfail.2.1 hfail.2.2]
    exact updateBalance_nonneg (updateBalance_nonneg hinv hsb) (by omega)

theorem transfer_money_nonneg (oracle : FailureOracle) (st : BankState) (source : Account)
    (dno : String) (amtInput : Option Int)
    (hs0 : 0 ≤ source.balance) (hinv : AllNonneg st) :
    AllNonneg (Bank.transfer_money oracle st source dno amtInput).2 := by
  unfold Bank.transfer_money
  by_cases h1 : dno = source.account_number
  · simpa [h1] using hinv
  · simp only [if_neg h1]
    cases hdest : find_account st.accounts dno with
    | none => exact hinv
    | some dest =>
      cases amtInput with
      | none => exact hinv
      | some amount =>
        by_cases h2 : amount ≤ 0
        · simpa [h2] using hinv
        · simp only [if_neg h2]
          by_cases h3 : source.balance < amount
          · simpa [h3] using hinv
          · simp only [if_neg h3]
            have hd0 : 0 ≤ dest.balance := hinv _ (find_account_mem hdest)
            exact transferCore_nonneg oracle st source dest dno amount hinv
              (by omega) hs0 hd0 (by omega)

theorem applyOp_nonneg (st : BankState) (op : Op) (hinv : AllNonneg st) :
    AllNonneg (applyOp st op) := by
  cases op with
  | create acc_no name mail mobile_num address init pin_hash persistFails logFails =>
    simp only [applyOp]
    by_cases h : init < 0
    · simp only [if_pos h]
      exact hinv
    · simp only [if_neg h]
      by_cases hp : persistFails = true
      · simp only [if_pos hp]
        exact hinv
      · simp only [if_neg hp]
        exact setAccount_nonneg hinv (by show (0:Int) ≤ init; omega)
  | deposit acc_no amount persistFails logFails =>
    simp only [applyOp]
    cases hf : find_account st.accounts acc_no with
    | none => exact hinv
    | some account =>
      have hacc : 0 ≤ account.balance := hinv _ (find_account_mem hf)
      by_cases h : amount ≤ 0
      · simp only [Account.deposit, if_pos h]
        exact hinv
      · simp only [Account.deposit, if_neg h]
        by_cases hp : persistFails = true
        · simp only [if_pos hp]
          refine updateBalance_nonneg (updateBalance_nonneg hinv ?_) ?_
          · show (0:Int) ≤ account.balance + amount
            omega
          · show (0:Int) ≤ account.balance + amount - amount
            omega
        · simp only [if_neg hp]
          refine updateBalance_nonneg hinv ?_
          show (0:Int) ≤ account.balance + amount
          omega
  | withdraw acc_no amount persistFails logFails =>
    simp only [applyOp]
    cases hf : find_account st.accounts acc_no with
    | none => exact hinv
    | some account =>
      have hacc : 0 ≤ account.balance := hinv _ (find_account_mem hf)
      by_cases h : amount ≤ 0
      · simp only [Account.withdraw, if_pos h]
        exact hinv
      · simp only [Account.withdraw, if_neg h]
        by_cases h2 : account.balance < amount
        · simp only [if_pos h2]
          exact hinv
        · simp only [if_neg h2]
          by_cases hp : persistFails = true
          · simp only [if_pos hp]
            refine updateBalance_nonneg (updateBalance_nonneg hinv ?_) ?_
            · show (0:Int) ≤ account.balance - amount
              omega
            · show (0:Int) ≤ account.balance - amount + amount
              omega
          · simp only [if_neg hp]
            refine updateBalance_nonneg hinv ?_
            show (0:Int) ≤ account.balance - amount
            omega
  | transfer oracle srcNo destNo amountInput =>
    simp only [applyOp]
    cases hf : find_account st.accounts srcNo with
    | none => exact hinv
    | some source =>
      have hs0 : 0 ≤ source.balance := hinv _ (find_account_mem hf)
      exact transfer_money_nonneg oracle st source destNo amountInput hs0 hinv

theorem runOps_nonneg (ops : List Op) (st : BankState) (hinv : AllNonneg st) :
    AllNonneg (runOps ops st) := by
  induction ops generalizing st with
  | nil => exact hinv
  | cons op rest ih => exact ih (applyOp st op) (applyOp_nonneg st op hinv)

theorem transfer_money_framesOK (oracle : FailureOracle) (st : BankState) (source : Account)
    (destNo : String) (amtInput : Option Int) :
    framesOK (Bank.transfer_money oracle st source destNo amtInput).2.accounts st.accounts := by
  unfold Bank.transfer_money
  by_cases h1 : destNo = source.account_number
  · simp only [if_pos h1]
    exact framesOK_refl _
  · simp only [if_neg h1]
    cases hdest : find_account st.accounts destNo with
    | none => exact framesOK_refl _
    | some dest =>
      cases amtInput with
      | none => exact framesOK_refl _
      | some amount =>
        by_cases h2 : amount ≤ 0
        · simp only [if_pos h2]
          exact framesOK_refl _
        · simp only [if_neg h2]
          by_cases h3 : source.balance < amount
          · simp only [if_pos h3]
            exact framesOK_refl _
          · simp only [if_neg h3]
            by_cases hfail : oracle.updateSrcFails = true ∨ oracle.updateDstFails = true ∨
                oracle.commitFails = true
            · rw [transferCore_fail_state _ _ _ _ _ _ hfail]
              exact framesOK_trans (framesOK_updateBalance _ _ _)
                (framesOK_trans (framesOK_updateBalance _ _ _)
                  (framesOK_trans (framesOK_updateBalance _ _ _) (framesOK_updateBalance _ _ _)))
            · simp only [not_or, Bool.not_eq_true] at hfail
              rw [transferCore_ok_state _ _ _ _ _ _ hfail.1 hfail.2.1 hfail.2.2]
              exact framesOK_trans (framesOK_updateBalance _ _ _) (framesOK_updateBalance _ _ _)

theorem transfer_money_find_frame (oracle : FailureOracle) (st : BankState) (source : Account)
    (destNo : String) (amtInput : Option Int) (k : String)
    (hk1 : k ≠ source.account_number) (hk2 : k ≠ destNo) :
    find_account (Bank.transfer_money oracle st source destNo amtInput).2.accounts k =
      find_account st.accounts k := by
  unfold Bank.transfer_money
  by_cases h1 : destNo = source.account_number
  · simp only [if_pos h1]
  · simp only [if_neg h1]
    cases hdest : find_account st.accounts destNo with
    | none => rfl
    | some dest =>
      cases amtInput with
      | none => rfl
      | some amount =>
        by_cases h2 : amount ≤ 0
        · simp only [if_pos h2]
        · simp only [if_neg h2]
          by_cases h3 : source.balance < amount
          · simp only [if_pos h3]
          · simp only [if_neg h3]
            by_cases hfail : oracle.updateSrcFails = true ∨ oracle.updateDstFails = true ∨
                oracle.commitFails = true
            · rw [transferCore_fail_state _ _ _ _ _ _ hfail]
              simp only [find_account_updateBalance_ne _ _ hk1,
                find_account_updateBalance_ne _ _ hk2]
            · simp only [not_or, Bool.not_eq_true] at hfail
              rw [transferCore_ok_state _ _ _ _ _ _ hfail.1 hfail.2.1 hfail.2.2]
              simp only [find_account_updateBalance_ne _ _ hk1,
                find_account_updateBalance_ne _ _ hk2]

/-- C6: `deposit(amount)` fails with `InvalidAmount` (returns the failure
flag) when `amount ≤ 0`, leaving the balance unchanged; otherwise it succeeds,
increasing the balance by exactly `amount`, and the balance reported back to
the caller is `a.balance + amount`. -/
theorem deposit_contract (a : Account) (amount : Int) :
    (amount ≤ 0 → Account.deposit a amount = (false, a)) ∧
    (0 < amount →
      Account.deposit a amount = (true, { a with balance := a.balance + amount }) ∧
      (Account.deposit a amount).2.balance = a.balance + amount) := by
  constructor
  · intro h
    simp [Account.deposit, h]
  · intro h
    constructor <;> simp [Account.deposit, not_le.mpr h]

/-- Witness for C6 at a concrete input: depositing 200 into `acctA`. -/
theorem deposit_contract_witness :
    Account.deposit acctA 200 = (true, { acctA with balance := acctA.balance + 200 }) :=
  ((deposit_contract acctA 200).2 (by decide)).1

/-- C7: `withdraw(amount)` fails with `InvalidAmount` when `amount ≤ 0` and
with `InsufficientFunds` when `amount > balance`, each failure leaving the
balance unchanged; otherwise (so in particular when `amount` equals the full
balance) it succeeds, decreasing the balance by exactly `amount`. -/
theorem withdraw_contract (a : Account) (amount : Int) :
    (amount ≤ 0 → Account.withdraw a amount = (false, a)) ∧
    (a.balance < amount → Account.withdraw a amount = (false, a)) ∧
    (0 < amount → amount ≤ a.balance →
      Account.withdraw a amount = (true, { a with balance := a.balance - amount })) := by
  refine ⟨?_, ?_, ?_⟩
  · intro h
    simp [Account.withdraw, h]
  · intro h
    by_cases h2 : amount ≤ 0 <;> simp [Account.withdraw, h, h2]
  · intro h1 h2
    simp [Account.withdraw, not_le.mpr h1, not_lt.mpr h2]

/-- Witness for C7 at a concrete input: withdrawing the full balance of
`acctA` succeeds. -/
theorem withdraw_contract_witness :
    Account.withdraw acctA 1000 = (true, { acctA with balance := acctA.balance - 1000 }) :=
  (withdraw_contract acctA 1000).2.2 (by decide) (by decide)

/-- C8: for any `amount > 0` not exceeding the starting balance,
`deposit(amount)` followed by `withdraw(amount)` both succeed and return the
account to exactly its original state. -/
theorem deposit_withdraw_inverse (a : Account) (amount : Int)
    (h1 : 0 < amount) (h2 : amount ≤ a.balance) :
    (Account.deposit a amount).1 = true ∧
    (Account.withdraw (Account.deposit a amount).2 amount).1 = true ∧
    (Account.withdraw (Account.deposit a amount).2 amount).2 = a := by
  have hd : Account.deposit a amount = (true, { a with balance := a.balance + amount }) := by
    simp [Account.deposit, not_le.mpr h1]
  rw [hd]
  have hw : Account.withdraw { a with balance := a.balance + amount } amount =
      (true, { a with balance := a.balance + amount - amount }) := by
    simp [Account.withdraw, not_le.mpr h1]
    omega
  rw [hw]
  refine ⟨rfl, rfl, ?_⟩
  have : a.balance + amount - amount = a.balance := by omega
  rw [this]

/-- Witness for C8 at a concrete input: deposit 500 then withdraw 500 on
`acctA`. -/
theorem deposit_withdraw_inverse_witness :
    (Account.withdraw (Account.deposit acctA 500).2 500).2 = acctA :=
  (deposit_withdraw_inverse acctA 500 (by decide) (by decide)).2.2

/-- C9: `authenticate(candidatePin)` hashes the candidate with the same
one-way function used at account creation (`sha256_hex`, which abstracts
SHA-256) and returns true exactly when that hash equals the stored
credential.  For an account whose credential was created from PIN `p`
(`create_account` stores `pin_hash = sha256_hex p`) it returns true for `p`,
and false for any other value `q` whose hash differs — collision-freeness of
SHA-256 on the 4-digit PIN space is an assumption about the hash function,
stated here as the hypothesis `sha256_hex q ≠ sha256_hex p`. -/
theorem authenticate_contract (sha256_hex : String → String) (a : Account) (p q : String)
    (hcreated : a.pin_hash = sha256_hex p) :
    (∀ r, Account.authenticate sha256_hex a r = true ↔ sha256_hex r = a.pin_hash) ∧
    Account.authenticate sha256_hex a p = true ∧
    (sha256_hex q ≠ sha256_hex p → Account.authenticate sha256_hex a q = false) := by
  refine ⟨fun r => by simp [Account.authenticate], ?_, ?_⟩
  · simp [Account.authenticate, hcreated]
  · intro hne
    simp [Account.authenticate, hcreated, hne]

/-- Witness for C9 at a concrete input: with the identity as an (injective on
this input) stand-in hash, the creation PIN authenticates and a different
PIN does not. -/
theorem authenticate_contract_witness :
    Account.authenticate (fun s => s) acctPin "1234" = true ∧
    Account.authenticate (fun s => s) acctPin "5678" = false := by
  have h := authenticate_contract (fun s => s) acctPin "1234" "5678" rfl
  exact ⟨h.2.1, h.2.2 (by decide)⟩

/-- C10: `deposit` and `withdraw` change no field of the account other than
`balance` (`authenticate` is pure — in this embedding it takes the account
and returns only a `Bool`, mutating nothing); `transfer_money` changes no
field other than `balance` of any stored account (`framesOK`), and leaves
every account whose number is neither the source's nor the destination's
entirely unchanged. -/
theorem frame_conditions (oracle : FailureOracle) (st : BankState) (source : Account)
    (destNo : String) (amtInput : Option Int) :
    (∀ a amount, sameExceptBalance (Account.deposit a amount).2 a) ∧
    (∀ a amount, sameExceptBalance (Account.withdraw a amount).2 a) ∧
    framesOK (Bank.transfer_money oracle st source destNo amtInput).2.accounts st.accounts ∧
    (∀ k, k ≠ source.account_number → k ≠ destNo →
      find_account (Bank.transfer_money oracle st source destNo amtInput).2.accounts k =
        find_account st.accounts k) := by
  refine ⟨?_, ?_, transfer_money_framesOK oracle st source destNo amtInput,
    transfer_money_find_frame oracle st source destNo amtInput⟩
  · intro a amount
    unfold Account.deposit
    split
    · exact sameExceptBalance_refl a
    · exact ⟨rfl, rfl, rfl, rfl, rfl, rfl⟩
  · intro a amount
    unfold Account.withdraw
    split
    · exact sameExceptBalance_refl a
    · split
      · exact sameExceptBalance_refl a
      · exact ⟨rfl, rfl, rfl, rfl, rfl, rfl⟩

/-- Witness for C10 at a concrete input: a transfer from `acctA` to `"B1"`
leaves the unrelated account number `"C9"` looking exactly as before. -/
theorem frame_conditions_witness :
    find_account (Bank.transfer_money oracleOk bank1 acctA "B1" (some 100)).2.accounts "C9" =
      find_account bank1.accounts "C9" :=
  (frame_conditions oracleOk bank1 acctA "B1" (some 100)).2.2.2 "C9" (by decide) (by decide)

/-- C4: `transfer` checks its failure conditions in source order —
`SameAccount` first (regardless of anything else), then `AccountNotFound`
(once the destination differs from the source), then `InvalidAmount` for a
parsed `amount ≤ 0`, then `InsufficientFunds` for `amount > source.balance` —
and each of these failures returns the whole bank state unchanged. -/
theorem transfer_check_order (oracle : FailureOracle) (st : BankState) (source : Account)
    (destNo : String) (amtInput : Option Int) :
    (destNo = source.account_number →
      Bank.transfer_money oracle st source destNo amtInput = (TransferResult.sameAccount, st)) ∧
    (destNo ≠ source.account_number → find_account st.accounts destNo = none →
      Bank.transfer_money oracle st source destNo amtInput =
        (TransferResult.accountNotFound, st)) ∧
    (∀ dest amount, destNo ≠ source.account_number →
      find_account st.accounts destNo = some dest → amtInput = some amount → amount ≤ 0 →
      Bank.transfer_money oracle st source destNo amtInput =
        (TransferResult.invalidAmount, st)) ∧
    (∀ dest amount, destNo ≠ source.account_number →
      find_account st.accounts destNo = some dest → amtInput = some amount →
      0 < amount → source.balance < amount →
      Bank.transfer_money oracle st source destNo amtInput =
        (TransferResult.insufficientFunds, st)) := by
  refine ⟨?_, ?_, ?_, ?_⟩
  · intro h
    simp [Bank.transfer_money, h]
  · intro h hn
    simp [Bank.transfer_money, h, hn]
  · intro dest amount h hd ha hle
    subst ha
    simp [Bank.transfer_money, h, hd, hle]
  · intro dest amount h hd ha hpos hgt
    subst ha
    simp [Bank.transfer_money, h, hd, not_le.mpr hpos, hgt]

/-- Witness for C4 at a concrete input: a self-transfer on `acctA` fails with
`SameAccount` and changes nothing. -/
theorem transfer_check_order_witness :
    Bank.transfer_money oracleOk bank1 acctA "A1" (some 5) =
      (TransferResult.sameAccount, bank1) :=
  (transfer_check_order oracleOk bank1 acctA "A1" (some 5)).1 rfl

/-- C1: every successful transfer of amount `a` from a source account to a
distinct destination leaves the source at `balance_before - a`, the
destination at `balance_before + a`, and therefore conserves the sum of the
two balances.  The hypotheses say the two account objects are the ones stored
in the bank's dictionary (Python aliasing). -/
theorem transfer_conservation (oracle : FailureOracle) (st : BankState)
    (source dest : Account) (destNo : String) (amtInput : Option Int)
    (hsrc : find_account st.accounts source.account_number = some source)
    (hdest : find_account st.accounts destNo = some dest)
    (hok : (Bank.transfer_money oracle st source destNo amtInput).1 = TransferResult.ok) :
    ∃ amount,
      amtInput = some amount ∧
      find_account (Bank.transfer_money oracle st source destNo amtInput).2.accounts
          source.account_number = some { source with balance := source.balance - amount } ∧
      find_account (Bank.transfer_money oracle st source destNo amtInput).2.accounts
          destNo = some { dest with balance := dest.balance + amount } ∧
      (source.balance - amount) + (dest.balance + amount) = source.balance + dest.balance := by
  obtain ⟨dest2, amount, hne, hdest2, hamt, hpos, hle, o1, o2, o5, heq⟩ :=
    transfer_money_ok_inv oracle st source destNo amtInput hok
  rw [hdest] at hdest2
  injection hdest2 with hdd
  subst hdd
  have hacc : (Bank.transfer_money oracle st source destNo amtInput).2.accounts =
      updateBalance (updateBalance st.accounts source.account_number
        (source.balance - amount)) destNo (dest.balance + amount) := by
    rw [heq, transferCore_ok_state _ _ _ _ _ _ o1 o2 o5]
  refine ⟨amount, hamt, ?_, ?_, by omega⟩
  · rw [hacc, find_account_updateBalance_ne _ _ (Ne.symm hne)]
    exact find_account_updateBalance_self _ hsrc
  · rw [hacc]
    refine find_account_updateBalance_self _ ?_
    rw [find_account_updateBalance_ne _ _ hne]
    exact hdest

/-- Witness for C1 at a concrete input: transferring 400 from `acctA` to
`acctB`. -/
theorem transfer_conservation_witness :
    ∃ amount,
      (some (400:Int)) = some amount ∧
      find_account (Bank.transfer_money oracleOk bank1 acctA "B1" (some 400)).2.accounts
          acctA.account_number = some { acctA with balance := acctA.balance - amount } ∧
      find_account (Bank.transfer_money oracleOk bank1 acctA "B1" (some 400)).2.accounts
          "B1" = some { acctB with balance := acctB.balance + amount } ∧
      (acctA.balance - amount) + (acctB.balance + amount) = acctA.balance + acctB.balance :=
  transfer_conservation oracleOk bank1 acctA acctB "B1" (some 400)
    (by decide) (by decide) (by decide)

/-- C2: if a persistence step of the transfer fails (`sqlite3.Error` in either
UPDATE or in the commit), the operation fails with `TransferFailed`
(`transferFailed` here), the in-memory balance changes are reverted — both
stored account objects are exactly what they were before the call — and
nothing new is committed to the database. -/
theorem transfer_rollback (oracle : FailureOracle) (st : BankState)
    (source dest : Account) (destNo : String) (amtInput : Option Int)
    (hsrc : find_account st.accounts source.account_number = some source)
    (hdest : find_account st.accounts destNo = some dest) :
    ((Bank.transfer_money oracle st source destNo amtInput).1 = TransferResult.transferFailed →
      find_account (Bank.transfer_money oracle st source destNo amtInput).2.accounts
          source.account_number = some source ∧
      find_account (Bank.transfer_money oracle st source destNo amtInput).2.accounts
          destNo = some dest ∧
      (Bank.transfer_money oracle st source destNo amtInput).2.db.committed =
        st.db.committed) ∧
    (∀ amount, amtInput = some amount → destNo ≠ source.account_number →
      0 < amount → amount ≤ source.balance →
      (oracle.updateSrcFails = true ∨ oracle.updateDstFails = true ∨
        oracle.commitFails = true) →
      (Bank.transfer_money oracle st source destNo amtInput).1 =
        TransferResult.transferFailed) := by
  constructor
  · intro hres
    obtain ⟨dest2, amount, hne, hdest2, hamt, hpos, hle, hfail, heq⟩ :=
      transfer_money_failed_inv oracle st source destNo amtInput hres
    rw [hdest] at hdest2
    injection hdest2 with hdd
    subst hdd
    have hacc : (Bank.transfer_money oracle st source destNo amtInput).2.accounts =
        updateBalance (updateBalance (updateBalance (updateBalance st.accounts
          source.account_number (source.balance - amount)) destNo (dest.balance + amount))
          source.account_number source.balance) destNo dest.balance := by
      rw [heq, transferCore_fail_state _ _ _ _ _ _ hfail]
    have hdb : (Bank.transfer_money oracle st source destNo amtInput).2.db =
        dbRollback st.db := by
      rw [heq, transferCore_fail_state _ _ _ _ _ _ hfail]
    refine ⟨?_, ?_, ?_⟩
    · rw [hacc, find_account_updateBalance_ne _ _ (Ne.symm hne)]
      have f2 : find_account (updateBalance (updateBalance st.accounts source.account_number
          (source.balance - amount)) destNo (dest.balance + amount)) source.account_number =
          some { source with balance := source.balance - amount } := by
        rw [find_account_updateBalance_ne _ _ (Ne.symm hne)]
        exact find_account_updateBalance_self _ hsrc
      have f3 := find_account_updateBalance_self source.balance f2
      exact f3
    · rw [hacc]
      have g3 : find_account (updateBalance (updateBalance (updateBalance st.accounts
          source.account_number (source.balance - amount)) destNo (dest.balance + amount))
          source.account_number source.balance) destNo =
          some { dest with balance := dest.balance + amount } := by
        rw [find_account_updateBalance_ne _ _ hne]
        refine find_account_updateBalance_self _ ?_
        rw [find_account_updateBalance_ne _ _ hne]
        exact hdest
      have g4 := find_account_updateBalance_self dest.balance g3
      exact g4
    · rw [hdb]
      rfl
  · intro amount hamt hne hpos hle hfail
    subst hamt
    rw [transfer_money_core_eq oracle st source dest destNo amount hne hdest hpos hle,
      transferCore_fail_state _ _ _ _ _ _ hfail]

/-- Witness for C2 at a concrete input: with only the commit failing, the
transfer of 100 from `acctA` fails with `TransferFailed` and `acctA` is found
unchanged afterwards. -/
theorem transfer_rollback_witness :
    (Bank.transfer_money oracleCommitFail bank1 acctA "B1" (some 100)).1 =
        TransferResult.transferFailed ∧
    find_account (Bank.transfer_money oracleCommitFail bank1 acctA "B1" (some 100)).2.accounts
        acctA.account_number = some acctA := by
  have h := transfer_rollback oracleCommitFail bank1 acctA acctB "B1" (some 100)
    (by decide) (by decide)
  have hres := h.2 100 rfl (by decide) (by decide) (by decide) (Or.inr (Or.inr rfl))
  exact ⟨hres, (h.1 hres).1⟩

/-- C5 counterexample: the claim says a failure to write either transfer log
entry makes the whole transfer fail.  That is false on the code:
`log_transaction` catches the `sqlite3.Error` itself (and only prints a
warning), so with the `Transfer Out` INSERT failing (`oracleLogOutFail`) the
transfer of 100 from `acctA` to `"B1"` still reports success and durably
commits both balance changes with only the `Transfer In` log entry. -/
theorem transfer_log_failure_not_fatal :
    (Bank.transfer_money oracleLogOutFail bank1 acctA "B1" (some 100)).1 =
        TransferResult.ok ∧
    (Bank.transfer_money oracleLogOutFail bank1 acctA "B1"
        (some 100)).2.db.committed.accounts = [("A1", 900), ("B1", 100)] ∧
    List.map (fun e => e.transaction_type)
        (Bank.transfer_money oracleLogOutFail bank1 acctA "B1"
          (some 100)).2.db.committed.txLog = ["Transfer In"] := by
  decide

/-- C5 (amended): within `transfer`, only the two balance UPDATEs and the
commit are part of the atomic unit; the two log INSERTs are best-effort
exactly as elsewhere — whether either of them fails, the transfer still
succeeds, and the committed transaction log gains exactly the log entries
whose INSERTs succeeded (both of them when neither fails), committed together
with the balance changes. -/
theorem transfer_logging_best_effort (st : BankState) (source dest : Account)
    (destNo : String) (amount : Int) (lo li : Bool)
    (hne : destNo ≠ source.account_number)
    (hdest : find_account st.accounts destNo = some dest)
    (hpos : 0 < amount) (hle : amount ≤ source.balance) :
    (Bank.transfer_money ⟨false, false, lo, li, false⟩ st source destNo (some amount)).1 =
        TransferResult.ok ∧
    (Bank.transfer_money ⟨false, false, lo, li, false⟩ st source destNo
        (some amount)).2.db.committed.txLog =
      st.db.current.txLog
        ++ (if lo then [] else [⟨source.account_number, "Transfer Out",
              String.append "To: " destNo, amount, source.balance - amount⟩])
        ++ (if li then [] else [⟨destNo, "Transfer In",
              String.append "From: " source.account_number, amount,
              dest.balance + amount⟩]) := by
  rw [transfer_money_core_eq _ st source dest destNo amount hne hdest hpos hle,
    transferCore_ok_state _ _ _ _ _ _ rfl rfl rfl]
  constructor
  · rfl
  · cases lo <;> cases li <;>
      simp [log_transaction, dbInsertLog, dbUpdateBalance, dbCommit]

/-- Witness for the amended C5 at a concrete input: `Transfer Out` INSERT
fails, `Transfer In` INSERT succeeds, transfer still succeeds. -/
theorem transfer_logging_best_effort_witness :
    (Bank.transfer_money ⟨false, false, true, false, false⟩ bank1 acctA "B1" (some 100)).1 =
        TransferResult.ok ∧
    (Bank.transfer_money ⟨false, false, true, false, false⟩ bank1 acctA "B1"
        (some 100)).2.db.committed.txLog =
      bank1.db.current.txLog
        ++ (if true then [] else [⟨acctA.account_number, "Transfer Out",
              String.append "To: " "B1", 100, acctA.balance - 100⟩])
        ++ (if false then [] else [⟨"B1", "Transfer In",
              String.append "From: " acctA.account_number, 100, acctB.balance + 100⟩]) :=
  transfer_logging_best_effort bank1 acctA acctB "B1" 100 true false
    (by decide) (by decide) (by decide) (by decide)

/-- C3: starting from any bank in which every account balance is ≥ 0 (for
instance the empty bank), `balance ≥ 0` holds for every account after every
sequence of operations — creation with initial deposit ≥ 0, deposits,
withdrawals, transfers, with arbitrary persistence/log failures.  Moreover
the debit check happens before the debit, never by clamping afterwards: a
withdrawal succeeds only when `0 < amount ≤ balance` and then subtracts
exactly `amount`, a failed withdrawal leaves the account untouched, and a
successful transfer requires `0 < amount ≤ source.balance` up front. -/
theorem balance_invariant (ops : List Op) (st : BankState) (hinv : AllNonneg st) :
    AllNonneg (runOps ops st) ∧
    (∀ a amount, (Account.withdraw a amount).1 = true →
      0 < amount ∧ amount ≤ a.balance ∧
      (Account.withdraw a amount).2.balance = a.balance - amount) ∧
    (∀ a amount, (Account.withdraw a amount).1 = false →
      (Account.withdraw a amount).2 = a) ∧
    (∀ oracle source destNo amtInput,
      (Bank.transfer_money oracle st source destNo amtInput).1 = TransferResult.ok →
      ∃ amount, amtInput = some amount ∧ 0 < amount ∧ amount ≤ source.balance) := by
  refine ⟨runOps_nonneg ops st hinv, ?_, ?_, ?_⟩
  · intro a amount h
    unfold Account.withdraw at h ⊢
    by_cases h1 : amount ≤ 0
    · simp [h1] at h
    · simp only [if_neg h1] at h ⊢
      by_cases h2 : a.balance < amount
      · simp [h2] at h
      · simp only [if_neg h2]
        exact ⟨by omega, by omega, True.intro⟩
  · intro a amount h
    unfold Account.withdraw at h ⊢
    by_cases h1 : amount ≤ 0
    · simp [h1]
    · simp only [if_neg h1] at h ⊢
      by_cases h2 : a.balance < amount
      · simp [h2]
      · simp [h2] at h
  · intro oracle source destNo amtInput hok
    obtain ⟨dest, amount, hne, hdest, hamt, hpos, hle, _, _, _, _⟩ :=
      transfer_money_ok_inv oracle st source destNo amtInput hok
    exact ⟨amount, hamt, hpos, hle⟩

/-- Witness for C3 at a concrete input: the invariant holds after running the
sample create/deposit/withdraw/transfer sequence from the empty bank. -/
theorem balance_invariant_witness :
    AllNonneg (runOps sampleOps bank0) :=
  (balance_invariant sampleOps bank0 (by decide)).1
